import Mathlib

/-!
Shallow embedding of the sharavv/ai-recommender-backend repository.

The repository is a set of JavaScript request handlers (an Express server in
src/server.js plus several serverless handler variants) that classify a
free-text request into a medium (movie / tv / song), query the TMDB or
Spotify catalog API, normalize the native items and respond with a uniform
recommendation list.

Modelling conventions:
- a JS value that may be `undefined`/`null` is an `Option`;
- JS truthiness of strings (`""` falsy) and numbers (`0` falsy) is made
  explicit through the `jsTruthy*` helpers;
- a JS expression that can throw is embedded as an `Except String`;
- each `await`ed network call becomes an explicit `Except`-valued parameter
  holding that call's outcome, so a handler is a pure function from its
  request data and the outcomes of its outbound calls to an HTTP response;
- `Date.now()` becomes an explicit `now : Int` parameter (milliseconds);
  the possibly-NaN expiry timestamp is the type `JsNum`;
- JS strings manipulated by split/join are, where token counting matters,
  handled through their underlying character list (`String.data`).
-/

namespace AiRec

/-- JS truthiness of a possibly-absent string: `undefined`, `null` and `""`
are falsy, every other string is truthy. -/
def jsTruthyStr : Option String → Bool
  | some s => s ≠ ""
  | none => false

/-- JS truthiness of a possibly-absent (JSON-derived, hence non-NaN) number. -/
def jsTruthyQ : Option ℚ → Bool
  | some q => q ≠ 0
  | none => false

/-- The JS expression `a || b` on possibly-absent strings. -/
def jsOrStr (a b : Option String) : Option String :=
  if jsTruthyStr a then a else b

/-- The JS expression `a || null` on a possibly-absent string. -/
def jsOrNullStr (a : Option String) : Option String :=
  if jsTruthyStr a then a else none

/-- The JS expression `a || d` where `d` is a string default. -/
def jsOrDefault (a : Option String) (d : String) : String :=
  if jsTruthyStr a then a.getD "" else d

/-- The JS expression `a || null` on a possibly-absent number. -/
def jsOrNullQ (a : Option ℚ) : Option ℚ :=
  if jsTruthyQ a then a else none

/-- The JS expression `a || d` on a possibly-absent integer (`0` is falsy). -/
def jsOrInt (a : Option Int) (d : Int) : Int :=
  match a with
  | some n => if n = 0 then d else n
  | none => d

/-- A JS number that may be NaN (produced by arithmetic on `undefined`,
e.g. `undefined * 1000`). -/
inductive JsNum where
  | num (n : Int)
  | nan
deriving DecidableEq

/-! ## Spotify token cache (src/server.js getSpotifyToken and variants) -/

/-- The module-level mutable state `spotifyToken` / `spotifyTokenExpiresAt`. -/
structure SpotifyCache where
  token : Option String
  expiresAt : JsNum
deriving DecidableEq

/-- The initial module state: `let spotifyToken = null; let spotifyTokenExpiresAt = 0;`. -/
def initialCache : SpotifyCache := ⟨none, .num 0⟩

/-- The guard `spotifyToken && Date.now() < spotifyTokenExpiresAt - 60000`.
A NaN expiry makes the comparison false. -/
def cacheFresh (now : Int) (c : SpotifyCache) : Bool :=
  jsTruthyStr c.token &&
    (match c.expiresAt with
     | .num e => decide (now < e - 60000)
     | .nan => false)

/-- The configuration values `SPOTIFY_CLIENT_ID` / `SPOTIFY_CLIENT_SECRET`. -/
structure TokenEnv where
  clientId : Option String
  clientSecret : Option String
deriving DecidableEq

/-- The body of a successful token-exchange response:
`{ access_token, expires_in? }`. -/
structure TokenData where
  access_token : String
  expires_in : Option Int
deriving DecidableEq

/-- Model of `getSpotifyToken` from src/server.js (lines 30-56): fresh cache hit
returns the cached token with no network call; missing credentials throw
before any exchange; otherwise the exchange outcome is consumed and, on
success, the cache stores the token with
`expiresAt = Date.now() + (expires_in || 3600) * 1000`.
The result is (returned value or thrown error, new cache state, number of
token-exchange network calls performed). -/
def getSpotifyTokenSrv (now : Int) (c : SpotifyCache) (env : TokenEnv)
    (exchange : Except String TokenData) :
    Except String String × SpotifyCache × Nat :=
  if cacheFresh now c then
    (.ok (c.token.getD ""), c, 0)
  else if !jsTruthyStr env.clientId || !jsTruthyStr env.clientSecret then
    (.error "Spotify client id/secret not set", c, 0)
  else
    match exchange with
    | .error e => (.error e, c, 1)
    | .ok d =>
        let expiry : Int := now + jsOrInt d.expires_in 3600 * 1000
        (.ok d.access_token, ⟨some d.access_token, .num expiry⟩, 1)

/-- Model of `getSpotifyToken` from src/unnamed/part_001 (lines 17-39): same cache
guard, but no credential check at all — the exchange is attempted
unconditionally — and no default lifetime: an absent `expires_in` makes
`expires_in * 1000` NaN, so the stored expiry is NaN. -/
def getSpotifyTokenP1 (now : Int) (c : SpotifyCache) (_env : TokenEnv)
    (exchange : Except String TokenData) :
    Except String String × SpotifyCache × Nat :=
  if cacheFresh now c then
    (.ok (c.token.getD ""), c, 0)
  else
    match exchange with
    | .error e => (.error e, c, 1)
    | .ok d =>
        let expiry : JsNum :=
          match d.expires_in with
          | some l => .num (now + l * 1000)
          | none => .nan
        (.ok d.access_token, ⟨some d.access_token, expiry⟩, 1)

/-- Model of `getSpotifyToken` from the serverless handler in src/server.js
(lines 239-265) and from src/unnamed/part_003 (lines 11-38): credential
check present (`"Spotify credentials missing"`), but no default lifetime —
an absent `expires_in` stores a NaN expiry. -/
def getSpotifyTokenHd (now : Int) (c : SpotifyCache) (env : TokenEnv)
    (exchange : Except String TokenData) :
    Except String String × SpotifyCache × Nat :=
  if cacheFresh now c then
    (.ok (c.token.getD ""), c, 0)
  else if !jsTruthyStr env.clientId || !jsTruthyStr env.clientSecret then
    (.error "Spotify credentials missing", c, 0)
  else
    match exchange with
    | .error e => (.error e, c, 1)
    | .ok d =>
        let expiry : JsNum :=
          match d.expires_in with
          | some l => .num (now + l * 1000)
          | none => .nan
        (.ok d.access_token, ⟨some d.access_token, expiry⟩, 1)

/-! ## Intent classifiers -/

/-- The JSON shape the src/server.js classifier expects from the completion
endpoint: `{ type?, keywords? }`. An absent field is `none`. -/
structure InterpretationSrv where
  type : Option String
  keywords : Option (List String)
deriving DecidableEq

/-- Model of `interpretInput` from src/server.js (lines 59-78), after the completion
call: its text body either parses to an `InterpretationSrv` (`some p`) or
fails to parse (`none`), in which case the catch substitutes
`{ type: "movie", keywords: [userInput] }`. A parsed object is returned
unchanged — no validation of the `type` value happens here. -/
def interpretInputSrv (userInput : String) (parsed : Option InterpretationSrv) :
    InterpretationSrv :=
  match parsed with
  | some p => p
  | none => ⟨some "movie", some [userInput]⟩

/-- The recognized media, `["movie", "tv", "song"]`. -/
def validTypes : List String := ["movie", "tv", "song"]

/-- The JS membership test `list.includes(o)` where `o` may be `undefined`. -/
def optMemB (o : Option String) (l : List String) : Bool :=
  match o with
  | some s => l.contains s
  | none => false

/-- The JSON shape the src/unnamed/part_002 classifier expects:
`{ type?, query? }`. -/
structure P2Interp where
  type : Option String
  query : Option String
deriving DecidableEq

/-- The classification step of src/unnamed/part_002 (lines 39-48): parse
failure substitutes `{ type: "movie", query: input }`; then a parsed `type`
outside the three recognized values is overwritten with `"movie"` while the
parsed `query` is kept. -/
def classifyP2 (input : String) (parsed : Option P2Interp) : P2Interp :=
  let i :=
    match parsed with
    | some p => p
    | none => ⟨some "movie", some input⟩
  if optMemB i.type validTypes then i else { i with type := some "movie" }

/-- The valid modes of the src/api/recommend.js classifier. -/
def validModes : List String := ["genre", "title"]

/-- The JSON shape the src/api/recommend.js classifier expects:
`{ type?, mode?, query? }`. -/
structure ApiInterp where
  type : Option String
  mode : Option String
  query : Option String
deriving DecidableEq

/-- The classification step of src/api/recommend.js (lines 42-52): parse
failure substitutes `{ type: "movie", mode: "title", query: input }`; an
unrecognized `type` becomes `"movie"`, an unrecognized `mode` becomes
`"title"`; a parsed `query` is kept in all cases. -/
def classifyApi (input : String) (parsed : Option ApiInterp) : ApiInterp :=
  let i :=
    match parsed with
    | some p => p
    | none => ⟨some "movie", some "title", some input⟩
  let i2 := if optMemB i.type validTypes then i else { i with type := some "movie" }
  if optMemB i2.mode validModes then i2 else { i2 with mode := some "title" }

/-! ## Result normalizers -/

/-- A native TMDB search/discover result item; every field the normalizers
read, each possibly absent. -/
structure TmdbItem where
  id : Option Int
  title : Option String
  name : Option String
  overview : Option String
  poster_path : Option String
  vote_average : Option ℚ
  release_date : Option String
  first_air_date : Option String
deriving DecidableEq

/-- A normalized movie/TV recommendation as built by src/server.js
(lines 153-160) and src/unnamed/part_002 (lines 79-88). -/
structure MovieRec where
  id : Option Int
  title : Option String
  overview : String
  poster_path : Option String
  tmdb_score : Option ℚ
  release_date : Option String
deriving DecidableEq

/-- The movie/TV field mapping of src/server.js lines 153-160:
`title: r.title || r.name`, `overview: r.overview || ""`,
`poster_path: r.poster_path || null`, `tmdb_score: r.vote_average || null`,
`release_date: r.release_date || r.first_air_date || null`. Total. -/
def normalizeMovieSrv (r : TmdbItem) : MovieRec :=
  { id := r.id
    title := jsOrStr r.title r.name
    overview := jsOrDefault r.overview ""
    poster_path := jsOrNullStr r.poster_path
    tmdb_score := jsOrNullQ r.vote_average
    release_date := jsOrNullStr (jsOrStr r.release_date r.first_air_date) }

/-- The movie/TV field mapping of src/unnamed/part_002 lines 79-88 and
src/api/recommend.js lines 92-101: identical to `normalizeMovieSrv` except
that a truthy `poster_path` is prefixed with the image CDN base URL via a
ternary. Total. -/
def normalizeMovieP2 (r : TmdbItem) : MovieRec :=
  { id := r.id
    title := jsOrStr r.title r.name
    overview := jsOrDefault r.overview ""
    poster_path :=
      if jsTruthyStr r.poster_path then
        some ("https://image.tmdb.org/t/p/w500" ++ r.poster_path.getD "")
      else none
    tmdb_score := jsOrNullQ r.vote_average
    release_date := jsOrNullStr (jsOrStr r.release_date r.first_air_date) }

/-- A credited artist on a native Spotify track. -/
structure ArtistN where
  name : String
deriving DecidableEq

/-- One album artwork entry. -/
structure ImageN where
  url : Option String
deriving DecidableEq

/-- The native album object of a Spotify track. -/
structure AlbumN where
  name : Option String
  images : Option (List ImageN)
deriving DecidableEq

/-- The `external_urls` object of a Spotify track. -/
structure ExtUrls where
  spotify : Option String
deriving DecidableEq

/-- A native Spotify track item; every field the normalizers read, the
optional objects possibly absent. -/
structure TrackN where
  id : Option String
  name : Option String
  artists : Option (List ArtistN)
  preview_url : Option String
  album : Option AlbumN
  external_urls : Option ExtUrls
deriving DecidableEq

/-- The join `artists.map(a => a.name).join(", ")`. -/
def joinComma (l : List String) : String := String.intercalate ", " l

/-- The optional-chaining expression `album.images?.[0]?.url` (before any
`|| null`): absent images list, empty list, or absent url all give
`undefined`. -/
def albumImageChain (alb : AlbumN) : Option String :=
  match alb.images with
  | none => none
  | some [] => none
  | some (i :: _) => i.url

/-- A normalized song recommendation as built by src/server.js lines 132-139. -/
structure TrackRecSrv where
  id : Option String
  title : Option String
  artists : String
  preview_url : Option String
  album_image : Option String
  external_url : Option String
deriving DecidableEq

/-- The song field mapping of src/server.js lines 132-139. The mapping
throws (modelled as `.error`) when `t.artists` is absent
(`t.artists.map` on undefined) or when `t.album` is absent
(`t.album.images` on undefined); `external_urls` is read through optional
chaining (`t.external_urls?.spotify || null`) and so never throws. -/
def normalizeTrackSrv (t : TrackN) : Except String TrackRecSrv :=
  match t.artists with
  | none => .error "TypeError: cannot read map of undefined"
  | some arts =>
      match t.album with
      | none => .error "TypeError: cannot read images of undefined"
      | some alb =>
          .ok { id := t.id
                title := t.name
                artists := joinComma (arts.map (fun a => a.name))
                preview_url := t.preview_url
                album_image := jsOrNullStr (albumImageChain alb)
                external_url :=
                  jsOrNullStr
                    (match t.external_urls with
                     | none => none
                     | some e => e.spotify) }

/-- A normalized song recommendation as built by src/unnamed/part_002
lines 115-122. -/
structure TrackRecP2 where
  id : Option String
  title : Option String
  artist : String
  album : Option String
  image : Option String
  external_url : Option String
deriving DecidableEq

/-- The song field mapping of src/unnamed/part_002 lines 115-122: throws
when `t.artists` is absent, when `t.album` is absent (`t.album.name`), or
when `t.external_urls` is absent (`t.external_urls.spotify` is a plain,
non-optional access here). -/
def normalizeTrackP2 (t : TrackN) : Except String TrackRecP2 :=
  match t.artists with
  | none => .error "TypeError: cannot read map of undefined"
  | some arts =>
      match t.album with
      | none => .error "TypeError: cannot read name of undefined"
      | some alb =>
          match t.external_urls with
          | none => .error "TypeError: cannot read spotify of undefined"
          | some ext =>
              .ok { id := t.id
                    title := t.name
                    artist := joinComma (arts.map (fun a => a.name))
                    album := alb.name
                    image := jsOrNullStr (albumImageChain alb)
                    external_url := ext.spotify }

/-- A normalized song recommendation as built by src/api/recommend.js
lines 132-140 (same as part_002 plus `preview_url`). -/
structure TrackRecApi where
  id : Option String
  title : Option String
  artist : String
  album : Option String
  preview_url : Option String
  image : Option String
  external_url : Option String
deriving DecidableEq

/-- The song field mapping of src/api/recommend.js lines 132-140: throws
when `t.artists`, `t.album` or `t.external_urls` is absent, like the
part_002 variant. -/
def normalizeTrackApi (t : TrackN) : Except String TrackRecApi :=
  match t.artists with
  | none => .error "TypeError: cannot read map of undefined"
  | some arts =>
      match t.album with
      | none => .error "TypeError: cannot read name of undefined"
      | some alb =>
          match t.external_urls with
          | none => .error "TypeError: cannot read spotify of undefined"
          | some ext =>
              .ok { id := t.id
                    title := t.name
                    artist := joinComma (arts.map (fun a => a.name))
                    album := alb.name
                    preview_url := t.preview_url
                    image := jsOrNullStr (albumImageChain alb)
                    external_url := ext.spotify }

/-- A track with every optional field absent. -/
def emptyTrack : TrackN := ⟨none, none, none, none, none, none⟩

/-- A TMDB item with every field absent. -/
def emptyTmdbItem : TmdbItem := ⟨none, none, none, none, none, none, none, none⟩

/-- Success test for `Except`. -/
def exceptOk : Except String α → Bool
  | .ok _ => true
  | .error _ => false

/-! ## Catalog client: safeGet retry loop (src/server.js lines 81-97) -/

/-- The outcome of one `axios.get` attempt: a response payload, or a thrown
error with its `code` and `message`. -/
inductive Attempt (α : Type) where
  | ok (v : α)
  | err (code : String) (msg : String)
deriving DecidableEq

/-- What a `safeGet` call produces overall: a returned response, a rethrown
error, or `undefined` (the JS function falls off the loop — unreachable for
`retries ≥ 1`). -/
inductive FetchResult (α : Type) where
  | ok (v : α)
  | thrown (code : String) (msg : String)
  | undef
deriving DecidableEq

/-- A `safeGet` execution trace: its result, how many GET attempts were
made, and the sleep durations (ms) between attempts. -/
structure FetchTrace (α : Type) where
  result : FetchResult α
  gets : Nat
  delays : List Nat
deriving DecidableEq

/-- The loop body of `safeGet` (src/server.js lines 82-96), iteration
index `i`, unrolled on fuel; the fuel is `retries - i` at entry, which the
loop never exhausts early. On an `ECONNRESET` error with `i < retries - 1`
the code sleeps 1500 ms and retries; any other error, or a reset on the
last allowed attempt, is rethrown immediately. -/
def safeGetGo (att : Nat → Attempt α) (retries : Nat) : Nat → Nat → FetchTrace α
  | _, 0 => ⟨.undef, 0, []⟩
  | i, fuel + 1 =>
    if i < retries then
      match att i with
      | .ok v => ⟨.ok v, 1, []⟩
      | .err c m =>
          if c = "ECONNRESET" ∧ i < retries - 1 then
            let rest := safeGetGo att retries (i + 1) fuel
            ⟨rest.result, rest.gets + 1, 1500 :: rest.delays⟩
          else ⟨.thrown c m, 1, []⟩
    else ⟨.undef, 0, []⟩

/-- Model of `safeGet(url)` with the default `retries = 3`, parameterized by the
outcome of each attempt. -/
def safeGet (att : Nat → Attempt α) : FetchTrace α := safeGetGo att 3 0 3

/-- What section 4.2 of the spec prescribes for the movie/TV fetch, written
from the spec words for comparison with `safeGet`: a single GET; on a
connection reset specifically, up to 2 additional attempts with a fixed
1.5 s delay before each; any other error, or a reset once the retries are
exhausted, surfaces immediately with the upstream code and message. -/
def specRetryPolicy (att : Nat → Attempt α) : FetchTrace α :=
  match att 0 with
  | .ok v => ⟨.ok v, 1, []⟩
  | .err c0 m0 =>
      if c0 ≠ "ECONNRESET" then ⟨.thrown c0 m0, 1, []⟩
      else
        match att 1 with
        | .ok v => ⟨.ok v, 2, [1500]⟩
        | .err c1 m1 =>
            if c1 ≠ "ECONNRESET" then ⟨.thrown c1 m1, 2, [1500]⟩
            else
              match att 2 with
              | .ok v => ⟨.ok v, 3, [1500, 1500]⟩
              | .err c2 m2 => ⟨.thrown c2 m2, 3, [1500, 1500]⟩

/-! ## Query-string construction -/

/-- The join `keywords.join(" ")`. -/
def joinSpace (l : List String) : String := String.intercalate " " l

/-- The truncation `keywords.split(" ").slice(0, 4).join(" ")` on the underlying character
list (src/server.js lines 123 and 144). -/
def safeKeywordsL (k : List Char) : List Char :=
  [' '].intercalate ((k.splitOn ' ').take 4)

/-- The same truncation on a `String`. -/
def safeKeywordsStr (k : String) : String := ⟨safeKeywordsL k.data⟩

/-- Number of `" "`-separated tokens of a string, i.e. the length of its
JS `split(" ")`. -/
def tokenCount (s : String) : Nat := (s.data.splitOn ' ').length

/-- The keyword string of the serverless handler in src/server.js
(line 310): `(interpretation.keywords || [input]).join(" ")`. An array —
even an empty one — is truthy, so only an absent field falls back. -/
def handlerKeywords (input : String) (kw : Option (List String)) : String :=
  joinSpace (kw.getD [input])

/-- The query string that same handler interpolates into the provider
search URL (src/server.js lines 317 and 335-340): the keyword string
unchanged — no truncation is applied on this path. -/
def handlerCatalogQuery (input : String) (kw : Option (List String)) : String :=
  handlerKeywords input kw

/-! ## The Express route POST /recommend (src/server.js lines 100-178) -/

/-- The assignment `type = interpretation.type || "movie"`. -/
def routeType (i : InterpretationSrv) : String :=
  match i.type with
  | some t => if t ≠ "" then t else "movie"
  | none => "movie"

/-- The assignment of `keywords` in the route: the joined classifier keywords
when the array is present and joins to a truthy string, else the raw input. -/
def routeKeywords (userInput : String) (i : InterpretationSrv) : String :=
  match i.keywords with
  | some ks => if joinSpace ks ≠ "" then joinSpace ks else userInput
  | none => userInput

/-- The recommendation list of the Express route, one of the two media. -/
inductive RecListSrv where
  | movies (l : List MovieRec)
  | tracks (l : List TrackRecSrv)
deriving DecidableEq

/-- A response body of the Express route. -/
inductive SrvBody where
  | fail (error : String) (details : Option String)
  | success (type : String) (keywords : String) (recs : RecListSrv) (history_id : Int)
deriving DecidableEq

/-- An HTTP response: status code and body. -/
structure HttpResp (β : Type) where
  status : Nat
  body : β
deriving DecidableEq

/-- Everything one invocation of the Express route depends on: the request
body and the outcome of every outbound call it may make. -/
structure SrvDeps where
  input : Option String
  interp : Except String (Option InterpretationSrv)
  tmdbKey : Option String
  now : Int
  cache : SpotifyCache
  env : TokenEnv
  exchange : Except String TokenData
  spSearch : Except String (Option (List TrackN))
  tmdbAtt : Nat → Attempt (Option (List TmdbItem))
  dbRun : Except String Int

/-- The catch-all of the route: `res.status(500).json({ error: "Internal
server error", details: err.message })`. -/
def err500 (details : String) : HttpResp SrvBody :=
  ⟨500, .fail "Internal server error" (some details)⟩

/-- The Express `POST /recommend` route (src/server.js lines 100-178).
Empty input short-circuits to 400; a missing TMDB key to 500; the song
branch runs `getSpotifyTokenSrv` then the Spotify search then the track
mapping (whose throw on a malformed item propagates); the movie/TV branch
runs `safeGet` and the total movie mapping over the first 8 results; any
exception reaching the route's catch becomes a 500 carrying the message. -/
def serverRecommend (d : SrvDeps) : HttpResp SrvBody :=
  if !jsTruthyStr d.input then ⟨400, .fail "No input provided" none⟩
  else
    let userInput := d.input.getD ""
    match d.interp with
    | .error e => err500 e
    | .ok parsed =>
        let interp := interpretInputSrv userInput parsed
        let ty := routeType interp
        let kw := routeKeywords userInput interp
        if !jsTruthyStr d.tmdbKey then
          ⟨500, .fail "TMDB_API_KEY not set in .env" none⟩
        else
          let recsE : Except String RecListSrv :=
            if ty = "song" then
              match getSpotifyTokenSrv d.now d.cache d.env d.exchange with
              | (.error e, _, _) => .error e
              | (.ok _, _, _) =>
                  match d.spSearch with
                  | .error e => .error e
                  | .ok tracksOpt =>
                      ((tracksOpt.getD []).mapM normalizeTrackSrv).map .tracks
            else
              match (safeGet d.tmdbAtt).result with
              | .thrown _ m => .error m
              | .undef => .error "TypeError: cannot read data of undefined"
              | .ok resultsOpt =>
                  .ok (.movies (((resultsOpt.getD []).take 8).map normalizeMovieSrv))
          match recsE with
          | .error e => err500 e
          | .ok recs =>
              match d.dbRun with
              | .error e => err500 e
              | .ok lastId => ⟨200, .success ty kw recs lastId⟩

/-! ## The serverless handler src/api/recommend.js -/

/-- A TMDB genre entry as returned by the genre-list endpoint. -/
structure Genre where
  id : Int
  name : String
deriving DecidableEq

/-- The genre-match step of src/api/recommend.js lines 67-70:
`genres.find(g => g.name.toLowerCase().includes(query.toLowerCase()))`.
When `query` is absent the callback throws on its first invocation, so a
non-empty genre list makes the whole handler throw; an empty list never
runs the callback. -/
def findGenre (genres : List Genre) (query : Option String) :
    Except String (Option Genre) :=
  match query with
  | some q => .ok (genres.find? (fun g => decide (q.toLower.data <:+: g.name.toLower.data)))
  | none =>
      if genres.isEmpty then .ok none
      else .error "TypeError: cannot read toLowerCase of undefined"

/-- The recommendation list of the serverless handler. -/
inductive ApiRecs where
  | movies (l : List MovieRec)
  | tracks (l : List TrackRecApi)
deriving DecidableEq

/-- The emptiness test `recommendations.length === 0`. -/
def ApiRecs.isEmptyB : ApiRecs → Bool
  | .movies l => l.isEmpty
  | .tracks l => l.isEmpty

/-- A response body of the serverless handler. -/
inductive ApiBody where
  | empty
  | fail (error : String) (details : Option String)
  | message (m : String)
  | results (r : ApiRecs)
deriving DecidableEq

/-- Everything one invocation of src/api/recommend.js depends on. -/
structure ApiDeps where
  method : String
  input : Option String
  completion : Except String (Option ApiInterp)
  genreFetch : Except String (Option (List Genre))
  searchFetch : Except String (Option (List TmdbItem))
  tokenFetch : Except String Unit
  trackSearch : Except String (Option (List TrackN))

/-- The serverless handler src/api/recommend.js (also structurally the
handler of src/unnamed/part_004, which lacks only the genre mode). The
genre-list fetch and genre match run outside the inner try, so their
failures reach the outer catch (500); the TMDB search fetch and the whole
Spotify block run inside inner try/catch blocks whose handlers only log,
so their failures leave `recommendations` empty and the handler answers
200 — with `{"message": "No results found"}` when the list is empty. -/
def apiRecommend (d : ApiDeps) : HttpResp ApiBody :=
  if d.method = "OPTIONS" then ⟨200, .empty⟩
  else if d.method ≠ "POST" then ⟨405, .fail "Only POST allowed" none⟩
  else if !jsTruthyStr d.input then ⟨400, .fail "No input provided" none⟩
  else
    let input := d.input.getD ""
    match d.completion with
    | .error e => ⟨500, .fail "Internal server error" (some e)⟩
    | .ok parsed =>
        let interp := classifyApi input parsed
        if interp.type = some "movie" ∨ interp.type = some "tv" then
          let pre : Except String Unit :=
            if interp.mode = some "genre" then
              match d.genreFetch with
              | .error e => .error e
              | .ok gOpt =>
                  match findGenre (gOpt.getD []) interp.query with
                  | .error e => .error e
                  | .ok _ => .ok ()
            else .ok ()
          match pre with
          | .error e => ⟨500, .fail "Internal server error" (some e)⟩
          | .ok _ =>
              let recs : ApiRecs :=
                match d.searchFetch with
                | .error _ => .movies []
                | .ok ro => .movies (((ro.getD []).take 8).map normalizeMovieP2)
              if recs.isEmptyB then ⟨200, .message "No results found"⟩
              else ⟨200, .results recs⟩
        else if interp.type = some "song" then
          let recs : ApiRecs :=
            match d.tokenFetch with
            | .error _ => .tracks []
            | .ok _ =>
                match d.trackSearch with
                | .error _ => .tracks []
                | .ok tOpt =>
                    match (tOpt.getD []).mapM normalizeTrackApi with
                    | .error _ => .tracks []
                    | .ok l => .tracks l
          if recs.isEmptyB then ⟨200, .message "No results found"⟩
          else ⟨200, .results recs⟩
        else ⟨200, .message "No results found"⟩

/-! ## Supporting lemmas -/

/-- Every piece produced by `splitOnP` consists of elements not satisfying
the predicate. -/
theorem splitOnP_pieces (p : α → Bool) (l : List α) :
    ∀ piece ∈ l.splitOnP p, ∀ a ∈ piece, ¬ p a = true := by
  induction l with
  | nil =>
    intro piece hp a ha
    simp only [List.splitOnP_nil, List.mem_singleton] at hp
    subst hp
    simp at ha
  | cons hd tl ih =>
    intro piece hp a ha
    rw [List.splitOnP_cons] at hp
    by_cases h : p hd
    · rw [if_pos h] at hp
      rcases List.mem_cons.mp hp with h1 | h1
      · subst h1; simp at ha
      · exact ih piece h1 a ha
    · rw [if_neg h] at hp
      obtain ⟨hd2, tl2, heq⟩ : ∃ x xs, tl.splitOnP p = x :: xs := by
        cases hq : tl.splitOnP p with
        | nil => exact absurd hq (List.splitOnP_ne_nil p tl)
        | cons x xs => exact ⟨x, xs, rfl⟩
      rw [heq, List.modifyHead_cons] at hp
      rcases List.mem_cons.mp hp with h1 | h1
      · subst h1
        rcases List.mem_cons.mp ha with h2 | h2
        · subst h2; exact h
        · exact ih hd2 (heq ▸ List.mem_cons_self _ _) a h2
      · exact ih piece (heq ▸ List.mem_cons_of_mem _ h1) a ha

/-- No piece of `l.splitOn ' '` contains a space. -/
theorem splitOn_space_pieces (l : List Char) :
    ∀ piece ∈ l.splitOn ' ', ' ' ∉ piece := by
  intro piece hp hmem
  have h := splitOnP_pieces (· == ' ') l piece (by simpa [List.splitOn] using hp) ' ' hmem
  simp at h

/-- The function `splitOn` never returns the empty list of pieces. -/
theorem splitOn_space_ne_nil (l : List Char) : l.splitOn ' ' ≠ [] := by
  simpa [List.splitOn] using List.splitOnP_ne_nil (· == ' ') l

/-! ## Claim theorems -/

/-- C1 counterexample: the src/server.js classifier returns a parsed
completion object unchanged, so when the completion parses as JSON with the
unrecognized medium `"book"`, `classify` yields an Intent whose medium is
not one of movie/tv/song and does not substitute the default Intent. -/
theorem c1_counterexample :
    interpretInputSrv "raw" (some ⟨some "book", some ["jazz"]⟩) =
      ⟨some "book", some ["jazz"]⟩
    ∧ optMemB (interpretInputSrv "raw" (some ⟨some "book", some ["jazz"]⟩)).type
        validTypes = false := by
  decide

/-- C1 (amended): on a JSON parse failure both classifiers substitute the
default Intent with medium movie and the raw text as the search term. The
part_002 classifier additionally coerces an unrecognized parsed medium to
movie — keeping the parsed search terms, not substituting the raw text —
so its output medium is always one of movie/tv/song; the src/server.js
classifier performs no such medium check and passes a parsed object
through unchanged. -/
theorem c1_classifier_fallback :
    (∀ input : String, interpretInputSrv input none = ⟨some "movie", some [input]⟩)
    ∧ (∀ input : String, classifyP2 input none = ⟨some "movie", some input⟩)
    ∧ (∀ (input : String) (p : Option P2Interp),
        optMemB (classifyP2 input p).type validTypes = true)
    ∧ ∀ (input : String) (p : P2Interp),
        optMemB p.type validTypes = false →
        classifyP2 input (some p) = ⟨some "movie", p.query⟩ := by
  refine ⟨fun _ => rfl, fun _ => rfl, ?_, ?_⟩
  · intro input p
    match p with
    | none => simp [classifyP2, optMemB, validTypes]
    | some q =>
        by_cases h : optMemB q.type validTypes = true
        · simp [classifyP2, h]
        · have hm : optMemB (some "movie") validTypes = true := by decide
          simp [classifyP2, h, hm]
  · intro input p h
    simp [classifyP2, h]

/-- C1 witness: a completion parsed as medium `"book"` with query
`"jazz"` is classified by the part_002 variant as medium movie with the
parsed query kept. -/
theorem c1_classifier_fallback_witness :
    classifyP2 "raw cat" (some ⟨some "book", some "jazz"⟩) =
      ⟨some "movie", some "jazz"⟩ :=
  c1_classifier_fallback.2.2.2 "raw cat" ⟨some "book", some "jazz"⟩ (by decide)

/-- C2 counterexample: the serverless handler in src/server.js builds its
provider query by joining all classifier keywords without truncation, so a
five-keyword classifier output reaches the catalog layer as a five-token
query string. -/
theorem c2_counterexample :
    tokenCount (handlerCatalogQuery "x" (some ["a", "b", "c", "d", "e"])) = 5
    ∧ ¬ tokenCount (handlerCatalogQuery "x" (some ["a", "b", "c", "d", "e"])) ≤ 4 := by
  decide

/-- C2 (amended): the Express route does truncate its provider query to at
most 4 space-separated tokens, but the serverless handler variant passes
the joined keyword string to the catalog layer unchanged, with no
truncation. -/
theorem c2_truncation :
    (∀ keywords : String, tokenCount (safeKeywordsStr keywords) ≤ 4)
    ∧ ∀ (input : String) (kw : Option (List String)),
        handlerCatalogQuery input kw = joinSpace (kw.getD [input]) := by
  constructor
  · intro keywords
    show ((safeKeywordsL keywords.data).splitOn ' ').length ≤ 4
    have hpieces : ∀ pc ∈ (keywords.data.splitOn ' ').take 4, ' ' ∉ pc := fun pc hpc =>
      splitOn_space_pieces keywords.data pc (List.take_subset _ _ hpc)
    have hne : (keywords.data.splitOn ' ').take 4 ≠ [] := by
      cases hq : keywords.data.splitOn ' ' with
      | nil => exact absurd hq (splitOn_space_ne_nil keywords.data)
      | cons x xs => simp [hq]
    unfold safeKeywordsL
    rw [List.splitOn_intercalate _ ' ' hpieces hne]
    simp
  · intro input kw
    rfl

/-- C3 counterexample: a native music item with every optional field absent
makes the normalizers of src/server.js and src/unnamed/part_002 throw (the
unguarded `t.artists.map` access), so `normalize` is not total on such
items. -/
theorem c3_counterexample :
    normalizeTrackSrv emptyTrack = .error "TypeError: cannot read map of undefined"
    ∧ normalizeTrackP2 emptyTrack = .error "TypeError: cannot read map of undefined"
    ∧ exceptOk (normalizeTrackSrv emptyTrack) = false :=
  ⟨rfl, rfl, rfl⟩

/-- C3 (amended): the movie/TV normalizer is total and maps absent optional
fields to null; the music normalizer of src/server.js succeeds exactly when
the artists array and album object are present, and the part_002 variant
additionally requires the external_urls object; otherwise they throw. -/
theorem c3_normalizer_totality :
    (∀ t : TrackN,
        exceptOk (normalizeTrackSrv t) = (t.artists.isSome && t.album.isSome))
    ∧ (∀ t : TrackN,
        exceptOk (normalizeTrackP2 t) =
          (t.artists.isSome && t.album.isSome && t.external_urls.isSome))
    ∧ normalizeMovieSrv emptyTmdbItem = ⟨none, none, "", none, none, none⟩ := by
  refine ⟨?_, ?_, by decide⟩
  · intro t
    rcases t with ⟨i, n, arts, pv, alb, ext⟩
    cases arts <;> cases alb <;> simp [normalizeTrackSrv, exceptOk]
  · intro t
    rcases t with ⟨i, n, arts, pv, alb, ext⟩
    cases arts <;> cases alb <;> cases ext <;> simp [normalizeTrackP2, exceptOk]

/-- C4 counterexample: in src/api/recommend.js a failing TMDB search fetch
is caught by the inner catch, which only logs; the handler then answers
status 200 with the "No results found" body — the fetch failure is
silently converted into a successful response instead of a non-2xx Failed
response. -/
theorem c4_counterexample :
    apiRecommend
        ⟨"POST", some "thriller",
          .ok (some ⟨some "movie", some "title", some "thriller"⟩),
          .ok none, .error "socket hang up", .ok (), .ok none⟩ =
      ⟨200, .message "No results found"⟩ := by
  decide

/-- C4 (amended): in the Express route of src/server.js a provider fetch
failure propagates to the route's catch-all and yields status 500 with the
error message attached as details; but in src/api/recommend.js (and the
part_004 variant) a TMDB search-fetch failure is caught, logged and turned
into a status-200 response ("No results found" when nothing else was
collected). -/
theorem c4_fetch_failure :
    (∀ (d : SrvDeps) (parsed : Option InterpretationSrv) (c m : String),
        jsTruthyStr d.input = true →
        d.interp = .ok parsed →
        routeType (interpretInputSrv (d.input.getD "") parsed) ≠ "song" →
        jsTruthyStr d.tmdbKey = true →
        (safeGet d.tmdbAtt).result = .thrown c m →
        serverRecommend d = ⟨500, .fail "Internal server error" (some m)⟩)
    ∧ ∀ (d : ApiDeps) (parsed : Option ApiInterp) (e : String),
        d.method = "POST" →
        jsTruthyStr d.input = true →
        d.completion = .ok parsed →
        ((classifyApi (d.input.getD "") parsed).type = some "movie" ∨
          (classifyApi (d.input.getD "") parsed).type = some "tv") →
        (classifyApi (d.input.getD "") parsed).mode = some "title" →
        d.searchFetch = .error e →
        apiRecommend d = ⟨200, .message "No results found"⟩ := by
  constructor
  · intro d parsed c m h1 h2 h3 h4 h5
    unfold serverRecommend
    rw [h1, h2]
    simp [h3, h4, h5, err500]
  · intro d parsed e h1 h2 h3 h4 h5 h6
    unfold apiRecommend
    rw [h1, h2, h3]
    rcases h4 with h4 | h4 <;>
      simp [h4, h5, h6, ApiRecs.isEmptyB]

/-- Concrete dependency record for the C4 witness: a movie-classified
request whose TMDB GET fails with a non-reset error. -/
def srvFailDeps : SrvDeps :=
  ⟨some "war movies", .ok (some ⟨some "movie", some ["war"]⟩), some "tmdbkey", 0,
    initialCache, ⟨none, none⟩, .error "no creds", .ok none,
    fun _ => .err "ENOTFOUND" "getaddrinfo ENOTFOUND", .ok 1⟩

/-- C4 witness: the Express route surfaces the concrete failing fetch as a
500 with the upstream message. -/
theorem c4_fetch_failure_witness :
    serverRecommend srvFailDeps =
      ⟨500, .fail "Internal server error" (some "getaddrinfo ENOTFOUND")⟩ :=
  c4_fetch_failure.1 srvFailDeps (some ⟨some "movie", some ["war"]⟩)
    "ENOTFOUND" "getaddrinfo ENOTFOUND" (by decide) rfl (by decide) (by decide)
    (by decide)

/-- C5: in src/api/recommend.js (and the part_004 variant) a request whose
provider fetch succeeds with zero items — for a title-mode movie/TV search,
a genre-mode search, or a song search — is answered with status 200 and the
body message "No results found": a valid, non-error outcome. -/
theorem c5_empty_results :
    (∀ (d : ApiDeps) (parsed : Option ApiInterp) (r : Option (List TmdbItem)),
        d.method = "POST" →
        jsTruthyStr d.input = true →
        d.completion = .ok parsed →
        ((classifyApi (d.input.getD "") parsed).type = some "movie" ∨
          (classifyApi (d.input.getD "") parsed).type = some "tv") →
        (classifyApi (d.input.getD "") parsed).mode = some "title" →
        d.searchFetch = .ok r →
        r.getD [] = [] →
        apiRecommend d = ⟨200, .message "No results found"⟩)
    ∧ (∀ (d : ApiDeps) (parsed : Option ApiInterp) (g : Option (List Genre))
        (mg : Option Genre) (r : Option (List TmdbItem)),
        d.method = "POST" →
        jsTruthyStr d.input = true →
        d.completion = .ok parsed →
        ((classifyApi (d.input.getD "") parsed).type = some "movie" ∨
          (classifyApi (d.input.getD "") parsed).type = some "tv") →
        (classifyApi (d.input.getD "") parsed).mode = some "genre" →
        d.genreFetch = .ok g →
        findGenre (g.getD []) (classifyApi (d.input.getD "") parsed).query = .ok mg →
        d.searchFetch = .ok r →
        r.getD [] = [] →
        apiRecommend d = ⟨200, .message "No results found"⟩)
    ∧ ∀ (d : ApiDeps) (parsed : Option ApiInterp) (t : Option (List TrackN)),
        d.method = "POST" →
        jsTruthyStr d.input = true →
        d.completion = .ok parsed →
        (classifyApi (d.input.getD "") parsed).type = some "song" →
        d.tokenFetch = .ok () →
        d.trackSearch = .ok t →
        t.getD [] = [] →
        apiRecommend d = ⟨200, .message "No results found"⟩ := by
  refine ⟨?_, ?_, ?_⟩
  · intro d parsed r h1 h2 h3 h4 h5 h6 h7
    unfold apiRecommend
    rw [h1, h2, h3]
    rcases h4 with h4 | h4 <;>
      simp [h4, h5, h6, h7, ApiRecs.isEmptyB]
  · intro d parsed g mg r h1 h2 h3 h4 h5 h6 h7 h8 h9
    unfold apiRecommend
    rw [h1, h2, h3]
    rcases h4 with h4 | h4 <;>
      simp [h4, h5, h6, h7, h8, h9, ApiRecs.isEmptyB]
  · intro d parsed t h1 h2 h3 h4 h5 h6 h7
    unfold apiRecommend
    rw [h1, h2, h3]
    simp [h4, h5, h6, h7, ApiRecs.isEmptyB, List.mapM, List.mapM.loop, pure, Except.pure]

/-- Concrete dependency record for the C5 witness: a title-mode movie
request whose TMDB search succeeds with an empty results array. -/
def apiEmptyDeps : ApiDeps :=
  ⟨"POST", some "space opera",
    .ok (some ⟨some "movie", some "title", some "space opera"⟩),
    .ok none, .ok (some []), .ok (), .ok none⟩

/-- C5 witness: the concrete zero-item request is answered 200 with the
"No results found" message. -/
theorem c5_empty_results_witness :
    apiRecommend apiEmptyDeps = ⟨200, .message "No results found"⟩ :=
  c5_empty_results.1 apiEmptyDeps
    (some ⟨some "movie", some "title", some "space opera"⟩) (some [])
    rfl (by decide) rfl (Or.inl (by decide)) (by decide) rfl rfl

/-- C6 counterexample: the part_001 variant of `getSpotifyToken` performs
no credential check: with both secrets absent from configuration and a
stale cache it still attempts the token-exchange network call (one call is
made), rather than failing with a CredentialError before any network
activity. -/
theorem c6_counterexample :
    (getSpotifyTokenP1 0 initialCache ⟨none, none⟩ (.error "ECONNREFUSED")).2.2 = 1 := by
  decide

/-- Helper: the credential-error path of the src/server.js token fetch. -/
theorem getSpotifyTokenSrv_credError (now : Int) (c : SpotifyCache) (env : TokenEnv)
    (ex : Except String TokenData) (h1 : cacheFresh now c = false)
    (h2 : jsTruthyStr env.clientId = false ∨ jsTruthyStr env.clientSecret = false) :
    getSpotifyTokenSrv now c env ex =
      (.error "Spotify client id/secret not set", c, 0) := by
  unfold getSpotifyTokenSrv
  rw [h1]
  rcases h2 with h2 | h2 <;> simp [h2]

/-- C6 (amended): the src/server.js `getSpotifyToken` (and the handler /
part_003 variants) throw their credential error with zero network calls
and an unchanged cache when either secret is absent and no fresh cached
token exists, and the Express route surfaces that error as a 500; the
part_001 variant instead attempts the exchange unconditionally. -/
theorem c6_missing_credentials :
    (∀ (now : Int) (c : SpotifyCache) (env : TokenEnv)
        (ex : Except String TokenData),
        cacheFresh now c = false →
        (jsTruthyStr env.clientId = false ∨ jsTruthyStr env.clientSecret = false) →
        getSpotifyTokenSrv now c env ex =
          (.error "Spotify client id/secret not set", c, 0)
        ∧ getSpotifyTokenHd now c env ex =
            (.error "Spotify credentials missing", c, 0))
    ∧ ∀ (d : SrvDeps) (parsed : Option InterpretationSrv),
        jsTruthyStr d.input = true →
        d.interp = .ok parsed →
        routeType (interpretInputSrv (d.input.getD "") parsed) = "song" →
        jsTruthyStr d.tmdbKey = true →
        cacheFresh d.now d.cache = false →
        (jsTruthyStr d.env.clientId = false ∨ jsTruthyStr d.env.clientSecret = false) →
        serverRecommend d =
          ⟨500, .fail "Internal server error" (some "Spotify client id/secret not set")⟩ := by
  constructor
  · intro now c env ex h1 h2
    refine ⟨getSpotifyTokenSrv_credError now c env ex h1 h2, ?_⟩
    unfold getSpotifyTokenHd
    rw [h1]
    rcases h2 with h2 | h2 <;> simp [h2]
  · intro d parsed h1 h2 h3 h4 h5 h6
    have hcred := getSpotifyTokenSrv_credError d.now d.cache d.env d.exchange h5 h6
    unfold serverRecommend
    rw [h1, h2]
    simp [h3, h4, hcred, err500]

/-- C6 witness: with a missing client id and a stale (initial) cache the
src/server.js token fetch fails with the credential error, makes no
network call and leaves the cache untouched. -/
theorem c6_missing_credentials_witness :
    getSpotifyTokenSrv 0 initialCache ⟨none, some "secret"⟩ (.ok ⟨"tok", some 3600⟩) =
      (.error "Spotify client id/secret not set", initialCache, 0) :=
  (c6_missing_credentials.1 0 initialCache ⟨none, some "secret"⟩
    (.ok ⟨"tok", some 3600⟩) (by decide) (Or.inl (by decide))).1

/-- C7: with a cached token present and the current time earlier than the
cached expiry minus 60 seconds, every `getSpotifyToken` variant returns
the cached token unchanged, performs zero network calls and leaves the
cache state exactly as it was. -/
theorem c7_cached_token :
    ∀ (now : Int) (c : SpotifyCache) (t : String) (e : Int) (env : TokenEnv)
      (ex : Except String TokenData),
      c.token = some t → t ≠ "" → c.expiresAt = .num e → now < e - 60000 →
      getSpotifyTokenSrv now c env ex = (.ok t, c, 0)
      ∧ getSpotifyTokenP1 now c env ex = (.ok t, c, 0)
      ∧ getSpotifyTokenHd now c env ex = (.ok t, c, 0) := by
  intro now c t e env ex h1 h2 h3 h4
  have hfresh : cacheFresh now c = true := by
    simp [cacheFresh, h1, h2, h3, jsTruthyStr, h4]
  have hget : c.token.getD "" = t := by rw [h1]; rfl
  refine ⟨?_, ?_, ?_⟩ <;>
    simp [getSpotifyTokenSrv, getSpotifyTokenP1, getSpotifyTokenHd, hfresh, hget]

/-- C7 witness: a concrete cache whose expiry is far in the future serves
the cached token with no network call. -/
theorem c7_cached_token_witness :
    getSpotifyTokenSrv 0 ⟨some "tok", .num 1000000⟩ ⟨none, none⟩ (.error "down") =
      (.ok "tok", ⟨some "tok", .num 1000000⟩, 0) :=
  (c7_cached_token 0 ⟨some "tok", .num 1000000⟩ "tok" 1000000 ⟨none, none⟩
    (.error "down") rfl (by decide) rfl (by decide)).1

/-- C8 counterexample: in the part_001 variant (and equally the serverless
handler in src/server.js and part_003) a token-exchange response carrying
no `expires_in` field stores a NaN expiry — `undefined * 1000` — not
`now + 3600 s`; the stored expiry is not a well-defined future timestamp. -/
theorem c8_counterexample :
    (getSpotifyTokenP1 1000 initialCache ⟨some "id", some "secret"⟩
        (.ok ⟨"tok", none⟩)).2.1.expiresAt = JsNum.nan
    ∧ JsNum.nan ≠ JsNum.num (1000 + 3600 * 1000) := by
  decide

/-- C8 (amended): on a successful refresh the src/server.js variant stores
the returned token and computes expiry = now + lifetime * 1000 ms, with the
lifetime defaulting to 3600 seconds when `expires_in` is absent (or 0); the
part_001 and handler variants apply no default, so an absent `expires_in`
leaves a NaN expiry in the cache. -/
theorem c8_expiry_computation :
    (∀ (now : Int) (c : SpotifyCache) (env : TokenEnv) (d : TokenData) (l : Int),
        cacheFresh now c = false →
        jsTruthyStr env.clientId = true → jsTruthyStr env.clientSecret = true →
        d.expires_in = some l → l ≠ 0 →
        getSpotifyTokenSrv now c env (.ok d) =
          (.ok d.access_token, ⟨some d.access_token, .num (now + l * 1000)⟩, 1))
    ∧ (∀ (now : Int) (c : SpotifyCache) (env : TokenEnv) (d : TokenData),
        cacheFresh now c = false →
        jsTruthyStr env.clientId = true → jsTruthyStr env.clientSecret = true →
        d.expires_in = none →
        getSpotifyTokenSrv now c env (.ok d) =
          (.ok d.access_token, ⟨some d.access_token, .num (now + 3600 * 1000)⟩, 1))
    ∧ (∀ (now : Int) (c : SpotifyCache) (env : TokenEnv) (d : TokenData),
        cacheFresh now c = false → d.expires_in = none →
        (getSpotifyTokenP1 now c env (.ok d)).2.1.expiresAt = JsNum.nan)
    ∧ ∀ (now : Int) (c : SpotifyCache) (env : TokenEnv) (d : TokenData),
        cacheFresh now c = false →
        jsTruthyStr env.clientId = true → jsTruthyStr env.clientSecret = true →
        d.expires_in = none →
        (getSpotifyTokenHd now c env (.ok d)).2.1.expiresAt = JsNum.nan := by
  refine ⟨?_, ?_, ?_, ?_⟩
  · intro now c env d l h1 h2 h3 h4 h5
    unfold getSpotifyTokenSrv
    rw [h1]
    simp [h2, h3, jsOrInt, h4, h5]
  · intro now c env d h1 h2 h3 h4
    unfold getSpotifyTokenSrv
    rw [h1]
    simp [h2, h3, jsOrInt, h4]
  · intro now c env d h1 h2
    unfold getSpotifyTokenP1
    rw [h1]
    simp [h2]
  · intro now c env d h1 h2 h3 h4
    unfold getSpotifyTokenHd
    rw [h1]
    simp [h2, h3, h4]

/-- C8 witness: a concrete refresh whose response has no lifetime field
stores expiry now + 3600 s in the src/server.js variant. -/
theorem c8_expiry_computation_witness :
    getSpotifyTokenSrv 500 initialCache ⟨some "id", some "secret"⟩
        (.ok ⟨"tok", none⟩) =
      (.ok "tok", ⟨some "tok", .num (500 + 3600 * 1000)⟩, 1) :=
  c8_expiry_computation.2.1 500 initialCache ⟨some "id", some "secret"⟩
    ⟨"tok", none⟩ (by decide) (by decide) (by decide) rfl

/-- Helper: the three iterations of the `safeGet` loop with the default
`retries = 3`, unrolled definitionally. -/
theorem safeGet_eval (att : Nat → Attempt α) :
    safeGet att =
      (match att 0 with
       | .ok v => (⟨.ok v, 1, []⟩ : FetchTrace α)
       | .err c m =>
           if c = "ECONNRESET" ∧ 0 < 2 then
             (fun rest : FetchTrace α =>
               (⟨rest.result, rest.gets + 1, 1500 :: rest.delays⟩ : FetchTrace α))
               (match att 1 with
                | .ok v => (⟨.ok v, 1, []⟩ : FetchTrace α)
                | .err c m =>
                    if c = "ECONNRESET" ∧ 1 < 2 then
                      (fun rest2 : FetchTrace α =>
                        (⟨rest2.result, rest2.gets + 1, 1500 :: rest2.delays⟩ :
                          FetchTrace α))
                        (match att 2 with
                         | .ok v => (⟨.ok v, 1, []⟩ : FetchTrace α)
                         | .err c m =>
                             if c = "ECONNRESET" ∧ 2 < 2 then
                               (⟨.undef, 1, [1500]⟩ : FetchTrace α)
                             else ⟨.thrown c m, 1, []⟩)
                    else ⟨.thrown c m, 1, []⟩)
           else ⟨.thrown c m, 1, []⟩) :=
  rfl

/-- C9: the `safeGet` retry loop of src/server.js implements exactly the
documented policy: one GET, up to 2 additional attempts with a fixed
1500 ms delay taken only after a connection-reset error, and immediate
surfacing of any other error or of the reset on the final attempt,
carrying the upstream code and message. -/
theorem c9_retry_policy {α : Type} (att : Nat → Attempt α) :
    safeGet att = specRetryPolicy att := by
  rw [safeGet_eval att]
  unfold specRetryPolicy
  rcases h0 : att 0 with v | ⟨c0, m0⟩
  · simp
  · by_cases hc0 : c0 = "ECONNRESET"
    · subst hc0
      rcases h1 : att 1 with v | ⟨c1, m1⟩
      · simp [h1]
      · by_cases hc1 : c1 = "ECONNRESET"
        · subst hc1
          rcases h2 : att 2 with v | ⟨c2, m2⟩
          · simp [h2]
          · simp [h2]
        · simp [h1, hc1]
    · simp [hc0]

/-- C10: the movie/TV normalizers coerce falsy native values to null: an
item with `vote_average` 0 normalizes identically to one with the field
absent (null score), and an item whose `release_date` is the empty string
with no `first_air_date` normalizes identically to one with both absent
(null release date), in both the src/server.js and part_002 variants. -/
theorem c10_falsy_coercion :
    ∀ r : TmdbItem,
      normalizeMovieSrv { r with vote_average := some 0 } =
        normalizeMovieSrv { r with vote_average := none }
      ∧ (normalizeMovieSrv { r with vote_average := some 0 }).tmdb_score = none
      ∧ normalizeMovieSrv { r with release_date := some "", first_air_date := none } =
          normalizeMovieSrv { r with release_date := none, first_air_date := none }
      ∧ (normalizeMovieSrv
            { r with release_date := some "", first_air_date := none }).release_date = none
      ∧ normalizeMovieP2 { r with vote_average := some 0 } =
          normalizeMovieP2 { r with vote_average := none }
      ∧ (normalizeMovieP2
            { r with release_date := some "", first_air_date := none }).release_date = none := by
  intro r
  refine ⟨?_, ?_, ?_, ?_, ?_, ?_⟩ <;>
    simp [normalizeMovieSrv, normalizeMovieP2, jsOrNullQ, jsTruthyQ, jsOrStr,
      jsOrNullStr, jsTruthyStr]

end AiRec
